import Mathlib

/-
Verification of the ticket-management backend (Django app `tickets`).

The embedding models:
  * the Ticket data model (`models.py`): enumerated category/priority/status
    columns, title/description text, immutable creation timestamp;
  * the serializers (`serializers.py`): TicketSerializer,
    TicketUpdateSerializer, ClassifyRequestSerializer,
    ClassifyResponseSerializer;
  * the API views (`views.py`): list_tickets (GET list / POST create),
    update_ticket, ticket_stats, classify_ticket;
  * the LLM classification adapter (`llm_service.py`);
  * the URL table (`urls.py`).

Text is modelled as `List Char` so that the Python string operations the code
uses (strip, lower, split, startswith, slicing) are kernel-computable.
Timestamps are seconds as naturals; `timedelta.days` is division by 86400.
The database is a list of rows; JSON parsing (`json.loads`) is modelled as an
arbitrary function returning `Option Json`, `none` standing for
`JSONDecodeError`; every exception path of the external HTTP call is the
explicit outcome `BackendOutcome.raised`.
-/

namespace Tickets

/-- Python strings, modelled as lists of characters. -/
abbrev Str := List Char

/-- Coerce a Lean string literal to the model type. -/
def str (s : String) : Str := s.data

/-- Whitespace characters recognised by Python's `str.strip()`. -/
def isWs (c : Char) : Bool :=
  c = ' ' || c = '\t' || c = '\n' || c = '\r' || c = '\x0b' || c = '\x0c'

/-- Python `str.strip()`: drop leading and trailing whitespace. -/
def wstrip (l : Str) : Str :=
  ((l.dropWhile isWs).reverse.dropWhile isWs).reverse

/-- ASCII lower-casing of one character (model of `str.lower()` on the
alphabets the system uses). -/
def lowerChar (c : Char) : Char :=
  if 'A' ≤ c && c ≤ 'Z' then Char.ofNat (c.toNat + 32) else c

/-- Python `str.lower()`. -/
def lowerStr (l : Str) : Str := l.map lowerChar

/-- Python `needle in hay` on strings: substring containment. -/
def containsSub (hay needle : Str) : Bool :=
  match hay with
  | [] => needle.isEmpty
  | _ :: t => needle.isPrefixOf hay || containsSub t needle

/-- Python `str.split('\n')`. -/
def splitLines (l : Str) : List Str :=
  match l with
  | [] => [[]]
  | c :: t =>
    if c = '\n' then [] :: splitLines t
    else
      match splitLines t with
      | [] => [[c]]
      | h :: r => (c :: h) :: r

/-- Python `'\n'.join(...)`. -/
def joinLines (ls : List Str) : Str :=
  match ls with
  | [] => []
  | [x] => x
  | x :: r => x ++ '\n' :: joinLines r

/-- The `category` column, constrained to `CATEGORY_CHOICES` at the storage
layer (`models.py`). -/
inductive Category
  | billing
  | technical
  | account
  | general
deriving DecidableEq, Repr

/-- The `priority` column, constrained to `PRIORITY_CHOICES`. -/
inductive Priority
  | low
  | medium
  | high
  | critical
deriving DecidableEq, Repr

/-- The `status` column, constrained to `STATUS_CHOICES`; default `open`. -/
inductive Status
  | «open»
  | in_progress
  | resolved
  | closed
deriving DecidableEq, Repr

/-- `Ticket.CATEGORY_CHOICES` from `models.py`: (stored value, display name). -/
def CATEGORY_CHOICES : List (String × String) :=
  [("billing", "Billing"), ("technical", "Technical"),
   ("account", "Account"), ("general", "General")]

/-- `Ticket.PRIORITY_CHOICES` from `models.py`. -/
def PRIORITY_CHOICES : List (String × String) :=
  [("low", "Low"), ("medium", "Medium"), ("high", "High"),
   ("critical", "Critical")]

/-- `Ticket.STATUS_CHOICES` from `models.py`. -/
def STATUS_CHOICES : List (String × String) :=
  [("open", "Open"), ("in_progress", "In Progress"),
   ("resolved", "Resolved"), ("closed", "Closed")]

/-- The stored string value of a category. -/
def Category.key : Category → String
  | .billing => "billing"
  | .technical => "technical"
  | .account => "account"
  | .general => "general"

/-- The stored string value of a priority. -/
def Priority.key : Priority → String
  | .low => "low"
  | .medium => "medium"
  | .high => "high"
  | .critical => "critical"

/-- The stored string value of a status. -/
def Status.key : Status → String
  | .«open» => "open"
  | .in_progress => "in_progress"
  | .resolved => "resolved"
  | .closed => "closed"

/-- Choice validation for the `category` field: a submitted string is accepted
exactly when it is one of the stored values of `CATEGORY_CHOICES`. -/
def Category.ofKey (s : String) : Option Category :=
  if s = "billing" then some .billing
  else if s = "technical" then some .technical
  else if s = "account" then some .account
  else if s = "general" then some .general
  else none

/-- Choice validation for the `priority` field. -/
def Priority.ofKey (s : String) : Option Priority :=
  if s = "low" then some .low
  else if s = "medium" then some .medium
  else if s = "high" then some .high
  else if s = "critical" then some .critical
  else none

/-- Choice validation for the `status` field. -/
def Status.ofKey (s : String) : Option Status :=
  if s = "open" then some .«open»
  else if s = "in_progress" then some .in_progress
  else if s = "resolved" then some .resolved
  else if s = "closed" then some .closed
  else none

/-- A stored ticket row (`models.Ticket`). `created_at` is seconds since the
epoch; `auto_now_add` sets it on insertion and never afterwards. -/
structure Ticket where
  id : Nat
  title : Str
  description : Str
  category : Category
  priority : Priority
  status : Status
  created_at : Nat
deriving DecidableEq, Repr

/-- The ticket table: rows plus the id the next insertion receives. -/
structure DB where
  tickets : List Ticket
  nextId : Nat
deriving DecidableEq, Repr

/-- Body of a POST `/tickets/` request, restricted to the serializer's
writable fields (`id` and `created_at` are read-only and ignored). -/
structure CreateRequest where
  title : Option Str
  description : Option Str
  category : Option String
  priority : Option String
  status : Option String
deriving Repr

/-- `TicketSerializer.is_valid()` plus `validated_data`: title and
description are required, whitespace-trimmed, non-empty, the trimmed title at
most 200 characters (`validate_title` / `validate_description` and the model
field's `max_length`); category and priority are required choices; status is
an optional choice defaulting to `open` (model default). -/
def ticketSerializerValidate (r : CreateRequest) :
    Option (Str × Str × Category × Priority × Status) :=
  match r.title, r.description, r.category, r.priority with
  | some t0, some d0, some c, some p =>
    let t := wstrip t0
    let d := wstrip d0
    if t = [] then none
    else if 200 < t.length then none
    else if d = [] then none
    else
      match Category.ofKey c, Priority.ofKey p with
      | some cat, some pri =>
        match r.status with
        | none => some (t, d, cat, pri, Status.«open»)
        | some s => (Status.ofKey s).map (fun st => (t, d, cat, pri, st))
      | _, _ => none
  | _, _, _, _ => none

/-- Reply of the POST branch of `list_tickets`. -/
inductive CreateResponse
  | created (t : Ticket)
  | badRequest
deriving DecidableEq, Repr

/-- HTTP code of a create reply. -/
def CreateResponse.statusCode : CreateResponse → Nat
  | .created _ => 201
  | .badRequest => 400

/-- POST branch of `list_tickets` (`views.py`): validate, save a new row with
a fresh id and the current time, answer 201 with the saved row, else 400. -/
def create_ticket_op (db : DB) (now : Nat) (r : CreateRequest) :
    CreateResponse × DB :=
  match ticketSerializerValidate r with
  | some (t, d, cat, pri, st) =>
    let tk : Ticket := ⟨db.nextId, t, d, cat, pri, st, now⟩
    (CreateResponse.created tk, ⟨db.tickets ++ [tk], db.nextId + 1⟩)
  | none => (CreateResponse.badRequest, db)

/-- Query parameters of GET `/tickets/`. -/
structure ListParams where
  category : Option String
  priority : Option String
  status : Option String
  search : Option Str
deriving Repr

/-- Ordering key of `Meta.ordering = ['-created_at']`: newest first. -/
def newestFirst (a b : Ticket) : Bool := b.created_at ≤ a.created_at

/-- GET branch of `list_tickets` (`views.py`): the default-ordered queryset
with each present, non-empty query parameter applied as a filter in program
order; `search` is a case-insensitive substring test on title or
description (`icontains`). -/
def list_tickets_op (db : DB) (ps : ListParams) : List Ticket :=
  let qs := db.tickets.mergeSort newestFirst
  let qs :=
    match ps.category with
    | some c => if c = "" then qs else qs.filter (fun t => t.category.key = c)
    | none => qs
  let qs :=
    match ps.priority with
    | some p => if p = "" then qs else qs.filter (fun t => t.priority.key = p)
    | none => qs
  let qs :=
    match ps.status with
    | some s => if s = "" then qs else qs.filter (fun t => t.status.key = s)
    | none => qs
  let qs :=
    match ps.search with
    | some s =>
      if s = [] then qs
      else qs.filter (fun t =>
        containsSub (lowerStr t.title) (lowerStr s) ||
        containsSub (lowerStr t.description) (lowerStr s))
    | none => qs
  qs

/-- The conjunction the spec describes: a ticket passes every supplied
filter; an absent (or empty, hence falsy) parameter passes everything. -/
def matchesFilters (ps : ListParams) (t : Ticket) : Bool :=
  (match ps.category with
   | some c => if c = "" then true else t.category.key = c
   | none => true) &&
  (match ps.priority with
   | some p => if p = "" then true else t.priority.key = p
   | none => true) &&
  (match ps.status with
   | some s => if s = "" then true else t.status.key = s
   | none => true) &&
  (match ps.search with
   | some s =>
     if s = [] then true
     else
       containsSub (lowerStr t.title) (lowerStr s) ||
       containsSub (lowerStr t.description) (lowerStr s)
   | none => true)

/-- Body of a PATCH `/tickets/{id}/` request, restricted to
`TicketUpdateSerializer.Meta.fields`. -/
structure UpdateRequest where
  category : Option String
  priority : Option String
  status : Option String
deriving DecidableEq, Repr

/-- Field validation of an optional `category`: absent is fine, present must
be a valid choice. -/
def parseOptCategory : Option String → Option (Option Category)
  | none => some none
  | some c =>
    match Category.ofKey c with
    | none => none
    | some cat => some (some cat)

/-- Field validation of an optional `priority`. -/
def parseOptPriority : Option String → Option (Option Priority)
  | none => some none
  | some p =>
    match Priority.ofKey p with
    | none => none
    | some pri => some (some pri)

/-- Field validation of an optional `status`. -/
def parseOptStatus : Option String → Option (Option Status)
  | none => some none
  | some s =>
    match Status.ofKey s with
    | none => none
    | some st => some (some st)

/-- `TicketUpdateSerializer.is_valid()`: every provided field must be a valid
choice, and `validate` rejects an update that provides none of the three
fields. -/
def updateSerializerValidate (u : UpdateRequest) :
    Option (Option Category × Option Priority × Option Status) :=
  match parseOptCategory u.category, parseOptPriority u.priority,
      parseOptStatus u.status with
  | some oc, some op, some os =>
    if oc.isNone ∧ op.isNone ∧ os.isNone then none else some (oc, op, os)
  | _, _, _ => none

/-- `serializer.save()` on a partial update: overwrite exactly the validated
fields, keep everything else. -/
def applyUpdate (t : Ticket) (oc : Option Category) (op : Option Priority)
    (os : Option Status) : Ticket :=
  { t with
    category := oc.getD t.category
    priority := op.getD t.priority
    status := os.getD t.status }

/-- Reply of `update_ticket`. -/
inductive UpdateResponse
  | ok (t : Ticket)
  | badRequest
  | notFound
deriving DecidableEq, Repr

/-- HTTP code of an update reply. -/
def UpdateResponse.statusCode : UpdateResponse → Nat
  | .ok _ => 200
  | .badRequest => 400
  | .notFound => 404

/-- `update_ticket` (`views.py`): fetch by primary key (404 when absent), run
the partial serializer (400 on invalid), write the merged row back, answer
200 with the full row. -/
def update_ticket_op (db : DB) (pk : Nat) (u : UpdateRequest) :
    UpdateResponse × DB :=
  match db.tickets.find? (fun t => t.id = pk) with
  | none => (UpdateResponse.notFound, db)
  | some t =>
    match updateSerializerValidate u with
    | none => (UpdateResponse.badRequest, db)
    | some (oc, op, os) =>
      let t' := applyUpdate t oc op os
      (UpdateResponse.ok t',
       ⟨db.tickets.map (fun x => if x.id = pk then t' else x), db.nextId⟩)

/-- Python's `round` with one decimal digit on the exact quotient:
round-half-to-even of ten times the value, divided by ten. -/
def roundHalfEven (q : ℚ) : ℤ :=
  let f := ⌊q⌋
  let r := q - f
  if r < 1 / 2 then f
  else if 1 / 2 < r then f + 1
  else if Even f then f else f + 1

/-- `round(x, 1)` from `ticket_stats`. -/
def round1 (q : ℚ) : ℚ := (roundHalfEven (10 * q) : ℚ) / 10

/-- A breakdown dictionary keyed by the stored choice strings. -/
abbrev Breakdown := String → Option Nat

/-- Python dict assignment `bd[k] = v`. -/
def bdSet (bd : Breakdown) (k : String) (v : Nat) : Breakdown :=
  fun k' => if k' = k then some v else bd k'

/-- A sequence of dict assignments from an association list. -/
def fillCounts (bd : Breakdown) (counts : List (String × Nat)) : Breakdown :=
  counts.foldl (fun bd kv => bdSet bd kv.1 kv.2) bd

/-- `values(col).annotate(count=Count('id'))`: one pair per distinct stored
value, with the number of rows holding it. -/
def valuesAnnotateCount (vals : List String) : List (String × Nat) :=
  vals.dedup.map (fun v => (v, vals.count v))

/-- Ascending `created_at` order (`order_by('created_at')`). -/
def oldestFirst (a b : Ticket) : Bool := a.created_at ≤ b.created_at

/-- `Ticket.objects.order_by('created_at').first()`. -/
def earliest_ticket (ts : List Ticket) : Option Ticket :=
  (ts.mergeSort oldestFirst).head?

/-- Reply of `ticket_stats`. -/
structure StatsResponse where
  total_tickets : Nat
  open_tickets : Nat
  avg_tickets_per_day : ℚ
  priority_breakdown : Breakdown
  category_breakdown : Breakdown

/-- `ticket_stats` (`views.py`): total row count; count of rows with status
`open`; average per day as total over days since the earliest row (at least
one day, `timedelta.days` being division by 86400 seconds), rounded to one
decimal, `0.0` without rows; and per-priority and per-category dictionaries
initialised to zero over the full choice lists and then overwritten from the
grouped counts. -/
def ticket_stats_op (db : DB) (now : Nat) : StatsResponse :=
  let total_tickets := db.tickets.length
  let open_tickets :=
    (db.tickets.filter (fun t => t.status = Status.«open»)).length
  let avg_tickets_per_day : ℚ :=
    match earliest_ticket db.tickets with
    | some e =>
      if 0 < total_tickets then
        let days_since_first := (now - e.created_at) / 86400
        let days_since_first := max days_since_first 1
        round1 ((total_tickets : ℚ) / (days_since_first : ℚ))
      else 0
    | none => 0
  let priority_breakdown :=
    fillCounts
      (fillCounts (fun _ => none) (PRIORITY_CHOICES.map (fun ch => (ch.1, 0))))
      (valuesAnnotateCount (db.tickets.map (fun t => t.priority.key)))
  let category_breakdown :=
    fillCounts
      (fillCounts (fun _ => none) (CATEGORY_CHOICES.map (fun ch => (ch.1, 0))))
      (valuesAnnotateCount (db.tickets.map (fun t => t.category.key)))
  ⟨total_tickets, open_tickets, avg_tickets_per_day,
   priority_breakdown, category_breakdown⟩

/-- A parsed JSON value, as produced by `json.loads`. -/
inductive Json
  | jnull
  | jbool (b : Bool)
  | jnum (n : ℤ)
  | jstr (s : String)
  | jarr (elems : List Json)
  | jobj (fields : List (String × Json))

/-- Python `dict.get`: the value of the last binding of the key, if any. -/
def jget (fields : List (String × Json)) (k : String) : Option Json :=
  fields.reverse.lookup k

/-- State of the singleton `LLMClassificationService` after lazy
initialisation: whether the provider library imported and the API key was
configured (`enabled`) and whether a client object exists. -/
structure LLMClassificationService where
  enabled : Bool
  hasClient : Bool
deriving DecidableEq, Repr

/-- Behaviour of the external chat-completion call: any exception (network
error, timeout, provider error), or a reply whose first choice carries the
given message text. -/
inductive BackendOutcome
  | raised
  | reply (text : Str)

/-- `valid_categories` from `llm_service.classify_ticket`. -/
def valid_categories : List String :=
  ["billing", "technical", "account", "general"]

/-- `valid_priorities` from `llm_service.classify_ticket`. -/
def valid_priorities : List String :=
  ["low", "medium", "high", "critical"]

/-- The suggestion dict returned on success. -/
structure Suggestion where
  suggested_category : String
  suggested_priority : String
deriving DecidableEq, Repr

/-- Defensive clean-up of the raw reply text in `classify_ticket`: strip,
drop markdown fence lines when the text starts with a fence, then drop a
leading case-insensitive `json` marker. -/
def cleanResponseText (raw : Str) : Str :=
  let t := wstrip raw
  let t :=
    if (str "```").isPrefixOf t then
      wstrip (joinLines
        ((splitLines t).filter (fun l => !((str "```").isPrefixOf l))))
    else t
  if (str "json").isPrefixOf (lowerStr t) then wstrip (t.drop 4) else t

/-- Parsing and validation of the reply text inside the `try` block of
`classify_ticket`: clean the text, run `json.loads` (`parse`, `none`
standing for a raised `JSONDecodeError`), require a JSON object whose
`category` and `priority` entries are strings in the fixed enums. -/
def parseClassification (parse : Str → Option Json) (raw : Str) :
    Option Suggestion :=
  match parse (cleanResponseText raw) with
  | none => none
  | some result =>
    match result with
    | .jobj fields =>
      match jget fields "category", jget fields "priority" with
      | some (.jstr c), some (.jstr p) =>
        if c ∈ valid_categories then
          if p ∈ valid_priorities then some ⟨c, p⟩
          else none
        else none
      | _, _ => none
    | _ => none

/-- `LLMClassificationService.classify_ticket` (`llm_service.py`). The
boolean records whether the external call was made. Every failure — service
disabled or unconfigured, blank description, raised exception, unparsable
reply, non-object reply, missing or non-string or out-of-enum category or
priority — yields `none`. -/
def classify_svc (svc : LLMClassificationService) (description : Str)
    (outcome : BackendOutcome) (parse : Str → Option Json) :
    Option Suggestion × Bool :=
  if !svc.enabled || !svc.hasClient then (none, false)
  else if wstrip description = [] then (none, false)
  else
    match outcome with
    | .raised => (none, true)
    | .reply raw => (parseClassification parse raw, true)

/-- `ClassifyRequestSerializer`: `description` is required, not blank, and
whitespace-trimmed; the validated value is the trimmed text. -/
def classifyRequestValidate (description : Option Str) : Option Str :=
  match description with
  | none => none
  | some d => if wstrip d = [] then none else some (wstrip d)

/-- `ClassifyResponseSerializer.is_valid()`: both suggested values must be
stored choice values. -/
def classifyResponseValid (s : Suggestion) : Bool :=
  s.suggested_category ∈ valid_categories &&
  s.suggested_priority ∈ valid_priorities

/-- Reply of the classify endpoint. -/
inductive ClassifyResponse
  | ok (s : Suggestion)
  | badRequest
  | unavailable (error detail : String)
deriving DecidableEq, Repr

/-- HTTP code of a classify reply. -/
def ClassifyResponse.statusCode : ClassifyResponse → Nat
  | .ok _ => 200
  | .badRequest => 400
  | .unavailable _ _ => 503

/-- `classify_ticket` view (`views.py`): validate the request (400), call the
service, answer 503 with the fixed unavailable body on `none`, re-validate a
non-`none` result against the response serializer (503 with the fixed
invalid-response body), else 200. The boolean records whether the external
call was made. -/
def classify_ticket_view (svc : LLMClassificationService)
    (reqDescription : Option Str) (outcome : BackendOutcome)
    (parse : Str → Option Json) : ClassifyResponse × Bool :=
  match classifyRequestValidate reqDescription with
  | none => (ClassifyResponse.badRequest, false)
  | some description =>
    match classify_svc svc description outcome parse with
    | (none, called) =>
      (ClassifyResponse.unavailable "Classification service unavailable"
        "Unable to classify ticket at this time. Please select category and priority manually.",
       called)
    | (some result, called) =>
      if classifyResponseValid result then (ClassifyResponse.ok result, called)
      else
        (ClassifyResponse.unavailable "Invalid classification response"
          "Classification service returned invalid data.", called)

/-- `urlpatterns` from `urls.py`: route paths with the name of the view
attribute of the `views` module each one is bound to. -/
def urlpatterns : List (String × String) :=
  [("tickets/", "list_tickets"),
   ("tickets/create/", "create_ticket"),
   ("tickets/stats/", "ticket_stats"),
   ("tickets/classify/", "classify_ticket"),
   ("tickets/<int:pk>/", "update_ticket")]

/-- The view functions `views.py` actually defines. -/
def views_defined : List String :=
  ["list_tickets", "update_ticket", "ticket_stats", "classify_ticket"]

/-- Modelled from the spec: the route table of section 6 — GET/POST
`/tickets/`, PATCH `/tickets/{id}/`, GET `/tickets/stats/`,
POST `/tickets/classify/` — written with the same path syntax as `urls.py`. -/
def spec_routes : List String :=
  ["tickets/", "tickets/stats/", "tickets/classify/", "tickets/<int:pk>/"]

/-- A category string is rejected exactly when it is not a stored choice
value. -/
theorem category_ofKey_eq_none_iff (c : String) :
    Category.ofKey c = none ↔ c ∉ CATEGORY_CHOICES.map Prod.fst := by
  unfold Category.ofKey
  split_ifs <;> simp_all [CATEGORY_CHOICES]

/-- An accepted category parses back to the submitted string. -/
theorem category_key_ofKey {c : String} {cat : Category}
    (h : Category.ofKey c = some cat) : cat.key = c := by
  cases cat <;> unfold Category.ofKey at h <;> split_ifs at h <;>
    simp_all [Category.key]

/-- A priority string is rejected exactly when it is not a stored choice
value. -/
theorem priority_ofKey_eq_none_iff (p : String) :
    Priority.ofKey p = none ↔ p ∉ PRIORITY_CHOICES.map Prod.fst := by
  unfold Priority.ofKey
  split_ifs <;> simp_all [PRIORITY_CHOICES]

/-- An accepted priority parses back to the submitted string. -/
theorem priority_key_ofKey {p : String} {pri : Priority}
    (h : Priority.ofKey p = some pri) : pri.key = p := by
  cases pri <;> unfold Priority.ofKey at h <;> split_ifs at h <;>
    simp_all [Priority.key]

/-- A status string is rejected exactly when it is not a stored choice
value. -/
theorem status_ofKey_eq_none_iff (s : String) :
    Status.ofKey s = none ↔ s ∉ STATUS_CHOICES.map Prod.fst := by
  unfold Status.ofKey
  split_ifs <;> simp_all [STATUS_CHOICES]

/-- An accepted status parses back to the submitted string. -/
theorem status_key_ofKey {s : String} {st : Status}
    (h : Status.ofKey s = some st) : st.key = s := by
  cases st <;> unfold Status.ofKey at h <;> split_ifs at h <;>
    simp_all [Status.key]

/-- Any non-`none` parse of a backend reply carries only stored choice
values. -/
theorem parseClassification_some_valid (parse : Str → Option Json) (raw : Str)
    (s : Suggestion) (h : parseClassification parse raw = some s) :
    s.suggested_category ∈ valid_categories ∧
    s.suggested_priority ∈ valid_priorities := by
  obtain ⟨sc, sp⟩ := s
  unfold parseClassification at h
  cases hp : parse (cleanResponseText raw) with
  | none => rw [hp] at h; simp at h
  | some result =>
    rw [hp] at h
    cases result with
    | jobj fields =>
      dsimp only at h
      cases hcat : jget fields "category" with
      | none => rw [hcat] at h; simp at h
      | some jc =>
        rw [hcat] at h
        cases hpri : jget fields "priority" with
        | none => rw [hpri] at h; cases jc <;> simp at h
        | some jp =>
          rw [hpri] at h
          cases jc <;> cases jp <;> simp at h
          obtain ⟨h1, h2, rfl, rfl⟩ := h
          exact ⟨h1, h2⟩
    | jnull => simp at h
    | jbool b => simp at h
    | jnum n => simp at h
    | jstr s => simp at h
    | jarr elems => simp at h

/-- Any non-`none` result of the adapter carries only stored choice
values. -/
theorem classify_svc_some_valid (svc : LLMClassificationService) (d : Str)
    (o : BackendOutcome) (parse : Str → Option Json) (s : Suggestion)
    (h : (classify_svc svc d o parse).1 = some s) :
    s.suggested_category ∈ valid_categories ∧
    s.suggested_priority ∈ valid_priorities := by
  unfold classify_svc at h
  repeat' split at h
  all_goals
    first
    | exact parseClassification_some_valid _ _ _ h
    | simp_all

/-- A `none` result of the adapter makes the view answer the fixed
unavailable body. -/
theorem classify_view_unavailable (svc : LLMClassificationService)
    (req : Option Str) (o : BackendOutcome) (parse : Str → Option Json)
    (d : Str) (hreq : classifyRequestValidate req = some d)
    (hnone : (classify_svc svc d o parse).1 = none) :
    classify_ticket_view svc req o parse =
      (ClassifyResponse.unavailable "Classification service unavailable"
        "Unable to classify ticket at this time. Please select category and priority manually.",
       (classify_svc svc d o parse).2) := by
  unfold classify_ticket_view
  rw [hreq]
  dsimp only
  rcases hc : classify_svc svc d o parse with ⟨r, called⟩
  rw [hc] at hnone
  dsimp only at hnone
  subst hnone
  rfl

/-- Every 503 reply of the view carries the fixed unavailable body: the
invalid-response branch is unreachable. -/
theorem classify_view_unavailable_shape (svc : LLMClassificationService)
    (req : Option Str) (o : BackendOutcome) (parse : Str → Option Json)
    (err det : String)
    (h : (classify_ticket_view svc req o parse).1 =
      ClassifyResponse.unavailable err det) :
    err = "Classification service unavailable" ∧
    det = "Unable to classify ticket at this time. Please select category and priority manually." := by
  cases hreq : classifyRequestValidate req with
  | none =>
    unfold classify_ticket_view at h
    rw [hreq] at h
    simp at h
  | some d =>
    rcases hc : classify_svc svc d o parse with ⟨r, called⟩
    cases r with
    | none =>
      have hview := classify_view_unavailable svc req o parse d hreq (by rw [hc])
      rw [hview] at h
      simp at h
      exact ⟨h.1.symm, h.2.symm⟩
    | some s =>
      have hv := classify_svc_some_valid svc d o parse s (by rw [hc])
      unfold classify_ticket_view at h
      rw [hreq] at h
      simp only [hc] at h
      simp [classifyResponseValid, hv.1, hv.2] at h

/-- A category string is accepted exactly when it is a stored choice
value. -/
theorem category_ofKey_isSome_iff (c : String) :
    (Category.ofKey c).isSome = true ↔ c ∈ CATEGORY_CHOICES.map Prod.fst := by
  unfold Category.ofKey
  split_ifs <;> simp_all [CATEGORY_CHOICES]

/-- A priority string is accepted exactly when it is a stored choice
value. -/
theorem priority_ofKey_isSome_iff (p : String) :
    (Priority.ofKey p).isSome = true ↔ p ∈ PRIORITY_CHOICES.map Prod.fst := by
  unfold Priority.ofKey
  split_ifs <;> simp_all [PRIORITY_CHOICES]

/-- A status string is accepted exactly when it is a stored choice value. -/
theorem status_ofKey_isSome_iff (s : String) :
    (Status.ofKey s).isSome = true ↔ s ∈ STATUS_CHOICES.map Prod.fst := by
  unfold Status.ofKey
  split_ifs <;> simp_all [STATUS_CHOICES]

/-- Value of the create serializer on a valid four-field request. -/
theorem createValidate_eq (t d : Str) (c p : String) {cat : Category}
    {pri : Priority} (h1 : wstrip t ≠ []) (h2 : (wstrip t).length ≤ 200)
    (h3 : wstrip d ≠ []) (hck : Category.ofKey c = some cat)
    (hpk : Priority.ofKey p = some pri) :
    ticketSerializerValidate ⟨some t, some d, some c, some p, none⟩ =
      some (wstrip t, wstrip d, cat, pri, Status.«open») := by
  unfold ticketSerializerValidate
  dsimp only
  rw [if_neg h1, if_neg (by omega), if_neg h3, hck, hpk]

/-- The create serializer accepts a four-field request exactly when the
trimmed title is non-empty and at most 200 characters long, the trimmed
description is non-empty, and category and priority are stored choice
values. -/
theorem createValidate_isSome_iff (t d : Str) (c p : String) :
    (ticketSerializerValidate ⟨some t, some d, some c, some p, none⟩).isSome
        = true ↔
      (wstrip t ≠ [] ∧ (wstrip t).length ≤ 200 ∧ wstrip d ≠ [] ∧
       c ∈ CATEGORY_CHOICES.map Prod.fst ∧
       p ∈ PRIORITY_CHOICES.map Prod.fst) := by
  unfold ticketSerializerValidate
  dsimp only
  split_ifs with h1 h2 h3
  · simp [h1]
  · simp only [Option.isSome_none, Bool.false_eq_true, false_iff, not_and]
    intro _ hlen
    omega
  · simp [h3]
  · have h2' : (wstrip t).length ≤ 200 := by omega
    cases hck : Category.ofKey c with
    | none =>
      have := (category_ofKey_eq_none_iff c).mp hck
      simp [h1, h2', h3, this]
    | some cat =>
      have hcm := (category_ofKey_isSome_iff c).mp (by rw [hck]; rfl)
      cases hpk : Priority.ofKey p with
      | none =>
        have := (priority_ofKey_eq_none_iff p).mp hpk
        simp [h1, h2', h3, hcm, this]
      | some pri =>
        have hpm := (priority_ofKey_isSome_iff p).mp (by rw [hpk]; rfl)
        simp [h1, h2', h3, hcm, hpm]

/-- An accepted optional category field parses back to the submitted
value. -/
theorem parseOptCategory_some {o : Option String} {oc : Option Category}
    (h : parseOptCategory o = some oc) : oc.map Category.key = o := by
  cases o with
  | none => simp [parseOptCategory] at h; subst h; rfl
  | some c =>
    dsimp [parseOptCategory] at h
    cases hck : Category.ofKey c with
    | none => rw [hck] at h; simp at h
    | some cat =>
      rw [hck] at h
      dsimp only at h
      injection h with h
      subst h
      simp [category_key_ofKey hck]

/-- An accepted optional priority field parses back to the submitted
value. -/
theorem parseOptPriority_some {o : Option String} {op : Option Priority}
    (h : parseOptPriority o = some op) : op.map Priority.key = o := by
  cases o with
  | none => simp [parseOptPriority] at h; subst h; rfl
  | some p =>
    dsimp [parseOptPriority] at h
    cases hpk : Priority.ofKey p with
    | none => rw [hpk] at h; simp at h
    | some pri =>
      rw [hpk] at h
      dsimp only at h
      injection h with h
      subst h
      simp [priority_key_ofKey hpk]

/-- An accepted optional status field parses back to the submitted value. -/
theorem parseOptStatus_some {o : Option String} {os : Option Status}
    (h : parseOptStatus o = some os) : os.map Status.key = o := by
  cases o with
  | none => simp [parseOptStatus] at h; subst h; rfl
  | some s =>
    dsimp [parseOptStatus] at h
    cases hsk : Status.ofKey s with
    | none => rw [hsk] at h; simp at h
    | some st =>
      rw [hsk] at h
      dsimp only at h
      injection h with h
      subst h
      simp [status_key_ofKey hsk]

/-- An accepted update body's validated fields are exactly the provided
fields, parsed. -/
theorem updateSerializerValidate_spec {u : UpdateRequest}
    {oc : Option Category} {op : Option Priority} {os : Option Status}
    (h : updateSerializerValidate u = some (oc, op, os)) :
    oc.map Category.key = u.category ∧ op.map Priority.key = u.priority ∧
    os.map Status.key = u.status := by
  unfold updateSerializerValidate at h
  cases hc : parseOptCategory u.category with
  | none => rw [hc] at h; simp at h
  | some oc' =>
    rw [hc] at h
    cases hp : parseOptPriority u.priority with
    | none => rw [hp] at h; simp at h
    | some op' =>
      rw [hp] at h
      cases hs : parseOptStatus u.status with
      | none => rw [hs] at h; simp at h
      | some os' =>
        rw [hs] at h
        dsimp only at h
        split_ifs at h
        all_goals simp at h
        obtain ⟨rfl, rfl, rfl⟩ := h
        exact ⟨parseOptCategory_some hc, parseOptPriority_some hp,
          parseOptStatus_some hs⟩

/-- The first row found by primary key is the only row with that id when
ids are unique. -/
theorem find_by_id_spec {l : List Ticket} {pk : Nat} {t : Ticket}
    (hnd : (l.map (fun t => t.id)).Nodup)
    (hf : l.find? (fun t => t.id = pk) = some t) :
    t ∈ l ∧ t.id = pk ∧ ∀ x ∈ l, x.id = pk → x = t := by
  have hmem := List.mem_of_find?_eq_some hf
  have hid : t.id = pk := by
    have := List.find?_some hf
    simpa using this
  refine ⟨hmem, hid, ?_⟩
  intro x hx hxid
  exact List.inj_on_of_nodup_map hnd hx hmem (by rw [hxid, hid])

/-- C1: `urls.py` binds the route `tickets/create/` to a view attribute
`create_ticket` that `views.py` never defines (importing the URL module
raises `AttributeError`), and the spec's route table has no such route; so
the URL table neither matches the spec's route list nor binds every entry to
a defined view. -/
theorem C1_create_route_unbound :
    ("tickets/create/", "create_ticket") ∈ urlpatterns ∧
    "create_ticket" ∉ views_defined ∧
    "tickets/create/" ∉ spec_routes ∧
    ¬(∀ p ∈ urlpatterns, p.2 ∈ views_defined) ∧
    ¬(urlpatterns.map Prod.fst = spec_routes) := by
  refine ⟨by decide, by decide, by decide, ?_, by decide⟩
  intro hall
  exact absurd (hall ("tickets/create/", "create_ticket") (by decide)) (by decide)

/-- C2: for every service state, description, backend behaviour and
`json.loads` behaviour, the adapter returns either `none` or a suggestion
whose two fields are valid enum values — every exception path is a modelled
branch yielding `none`, so nothing escapes to the caller — and whenever the
adapter returns `none` on a validated request the endpoint answers the fixed
503 unavailable response. -/
theorem C2_classify_never_raises (svc : LLMClassificationService) (d : Str)
    (o : BackendOutcome) (parse : Str → Option Json) (req : Option Str) :
    ((classify_svc svc d o parse).1 = none ∨
      ∃ s, (classify_svc svc d o parse).1 = some s ∧
        s.suggested_category ∈ valid_categories ∧
        s.suggested_priority ∈ valid_priorities) ∧
    (∀ d', classifyRequestValidate req = some d' →
      (classify_svc svc d' o parse).1 = none →
      (classify_ticket_view svc req o parse).1 =
        ClassifyResponse.unavailable "Classification service unavailable"
          "Unable to classify ticket at this time. Please select category and priority manually." ∧
      ((classify_ticket_view svc req o parse).1).statusCode = 503) := by
  constructor
  · cases hr : (classify_svc svc d o parse).1 with
    | none => exact Or.inl rfl
    | some s =>
      exact Or.inr ⟨s, rfl, classify_svc_some_valid svc d o parse s hr⟩
  · intro d' hreq hnone
    have hview := classify_view_unavailable svc req o parse d' hreq hnone
    constructor
    · rw [hview]
    · rw [hview]; rfl

/-- Witness for C2 with the service disabled and a raising backend. -/
theorem C2_classify_never_raises_witness :
    ((classify_svc ⟨false, false⟩ (str "help") BackendOutcome.raised
        (fun _ => none)).1 = none ∨
      ∃ s, (classify_svc ⟨false, false⟩ (str "help") BackendOutcome.raised
          (fun _ => none)).1 = some s ∧
        s.suggested_category ∈ valid_categories ∧
        s.suggested_priority ∈ valid_priorities) ∧
    ((classify_ticket_view ⟨false, false⟩ (some (str "help"))
        BackendOutcome.raised (fun _ => none)).1 =
      ClassifyResponse.unavailable "Classification service unavailable"
        "Unable to classify ticket at this time. Please select category and priority manually." ∧
     ((classify_ticket_view ⟨false, false⟩ (some (str "help"))
        BackendOutcome.raised (fun _ => none)).1).statusCode = 503) :=
  ⟨(C2_classify_never_raises ⟨false, false⟩ (str "help") BackendOutcome.raised
      (fun _ => none) (some (str "help"))).1,
   (C2_classify_never_raises ⟨false, false⟩ (str "help") BackendOutcome.raised
      (fun _ => none) (some (str "help"))).2 (str "help") (by decide) rfl⟩

/-- C7: a backend reply that parses to a JSON object whose category or
priority string is outside the fixed enums is treated as failure: the
adapter yields `none`, and on a validated request the endpoint answers the
fixed 503 unavailable body, so the out-of-enum value is never passed
through. -/
theorem C7_out_of_enum_rejected (svc : LLMClassificationService)
    (req : Option Str) (d' raw : Str) (parse : Str → Option Json)
    (fields : List (String × Json)) (c p : String)
    (hreq : classifyRequestValidate req = some d')
    (hp : parse (cleanResponseText raw) = some (Json.jobj fields))
    (hcat : jget fields "category" = some (Json.jstr c))
    (hpri : jget fields "priority" = some (Json.jstr p))
    (hout : c ∉ valid_categories ∨ p ∉ valid_priorities) :
    (classify_svc svc d' (BackendOutcome.reply raw) parse).1 = none ∧
    (classify_ticket_view svc req (BackendOutcome.reply raw) parse).1 =
      ClassifyResponse.unavailable "Classification service unavailable"
        "Unable to classify ticket at this time. Please select category and priority manually." ∧
    ((classify_ticket_view svc req (BackendOutcome.reply raw) parse).1).statusCode
      = 503 := by
  have hpc : parseClassification parse raw = none := by
    unfold parseClassification
    rw [hp]
    dsimp only
    rw [hcat, hpri]
    rcases hout with hc | hp2
    · simp [hc]
    · by_cases hcv : c ∈ valid_categories
      · simp [hcv, hp2]
      · simp [hcv]
  have hnone :
      (classify_svc svc d' (BackendOutcome.reply raw) parse).1 = none := by
    unfold classify_svc
    split_ifs <;> simp [hpc]
  have hview :=
    classify_view_unavailable svc req (BackendOutcome.reply raw) parse d'
      hreq hnone
  exact ⟨hnone, by rw [hview], by rw [hview]; rfl⟩

/-- Witness for C7: a well-formed object reply with category `spam`. -/
theorem C7_out_of_enum_rejected_witness :
    (classify_svc ⟨true, true⟩ (str "Printer on fire")
        (BackendOutcome.reply (str "x"))
        (fun _ => some (Json.jobj
          [("category", Json.jstr "spam"), ("priority", Json.jstr "low")]))).1
      = none ∧
    (classify_ticket_view ⟨true, true⟩ (some (str "Printer on fire"))
        (BackendOutcome.reply (str "x"))
        (fun _ => some (Json.jobj
          [("category", Json.jstr "spam"), ("priority", Json.jstr "low")]))).1
      = ClassifyResponse.unavailable "Classification service unavailable"
          "Unable to classify ticket at this time. Please select category and priority manually." ∧
    ((classify_ticket_view ⟨true, true⟩ (some (str "Printer on fire"))
        (BackendOutcome.reply (str "x"))
        (fun _ => some (Json.jobj
          [("category", Json.jstr "spam"), ("priority", Json.jstr "low")]))).1).statusCode
      = 503 :=
  C7_out_of_enum_rejected ⟨true, true⟩ (some (str "Printer on fire"))
    (str "Printer on fire") (str "x")
    (fun _ => some (Json.jobj
      [("category", Json.jstr "spam"), ("priority", Json.jstr "low")]))
    [("category", Json.jstr "spam"), ("priority", Json.jstr "low")]
    "spam" "low" (by decide) rfl rfl rfl (Or.inl (by decide))

/-- C8: a missing, empty or all-whitespace description is rejected with 400
before the external backend is consulted (the call flag stays `false`), and
an unavailable backend yields 503 with the fixed error/detail body. -/
theorem C8_blank_400_unavailable_503 (svc : LLMClassificationService)
    (o : BackendOutcome) (parse : Str → Option Json) :
    (∀ d, wstrip d = [] →
      classify_ticket_view svc (some d) o parse =
        (ClassifyResponse.badRequest, false) ∧
      ((classify_ticket_view svc (some d) o parse).1).statusCode = 400) ∧
    classify_ticket_view svc none o parse =
      (ClassifyResponse.badRequest, false) ∧
    (∀ req d', classifyRequestValidate req = some d' →
      (classify_svc svc d' o parse).1 = none →
      (classify_ticket_view svc req o parse).1 =
        ClassifyResponse.unavailable "Classification service unavailable"
          "Unable to classify ticket at this time. Please select category and priority manually." ∧
      ((classify_ticket_view svc req o parse).1).statusCode = 503) := by
  refine ⟨?_, ?_, ?_⟩
  · intro d hd
    have hv : classifyRequestValidate (some d) = none := by
      simp [classifyRequestValidate, hd]
    constructor
    · unfold classify_ticket_view
      rw [hv]
    · unfold classify_ticket_view
      rw [hv]
      rfl
  · rfl
  · intro req d' hreq hnone
    have hview := classify_view_unavailable svc req o parse d' hreq hnone
    exact ⟨by rw [hview], by rw [hview]; rfl⟩

/-- Witness for C8: an all-whitespace description, and a disabled service. -/
theorem C8_blank_400_unavailable_503_witness :
    (classify_ticket_view ⟨false, false⟩ (some (str "   "))
        BackendOutcome.raised (fun _ => none) =
      (ClassifyResponse.badRequest, false) ∧
     ((classify_ticket_view ⟨false, false⟩ (some (str "   "))
        BackendOutcome.raised (fun _ => none)).1).statusCode = 400) ∧
    ((classify_ticket_view ⟨false, false⟩ (some (str "hi"))
        BackendOutcome.raised (fun _ => none)).1 =
      ClassifyResponse.unavailable "Classification service unavailable"
        "Unable to classify ticket at this time. Please select category and priority manually." ∧
     ((classify_ticket_view ⟨false, false⟩ (some (str "hi"))
        BackendOutcome.raised (fun _ => none)).1).statusCode = 503) :=
  ⟨(C8_blank_400_unavailable_503 ⟨false, false⟩ BackendOutcome.raised
      (fun _ => none)).1 (str "   ") (by decide),
   (C8_blank_400_unavailable_503 ⟨false, false⟩ BackendOutcome.raised
      (fun _ => none)).2.2 (some (str "hi")) (str "hi") (by decide) rfl⟩

/-- C10: every non-`none` adapter result passes the response serializer, and
every 503 the endpoint emits carries the unavailable body — the second 503
branch (`Invalid classification response`) is unreachable. -/
theorem C10_second_503_branch_unreachable :
    (∀ (svc : LLMClassificationService) (d : Str) (o : BackendOutcome)
      (parse : Str → Option Json) (s : Suggestion),
      (classify_svc svc d o parse).1 = some s →
      classifyResponseValid s = true) ∧
    (∀ (svc : LLMClassificationService) (req : Option Str)
      (o : BackendOutcome) (parse : Str → Option Json) (err det : String),
      (classify_ticket_view svc req o parse).1 =
        ClassifyResponse.unavailable err det →
      err = "Classification service unavailable" ∧
      det = "Unable to classify ticket at this time. Please select category and priority manually.") := by
  constructor
  · intro svc d o parse s hs
    have hv := classify_svc_some_valid svc d o parse s hs
    simp [classifyResponseValid, hv.1, hv.2]
  · intro svc req o parse err det h
    exact classify_view_unavailable_shape svc req o parse err det h

/-- Witness for C10: a successful classification and a failed one. -/
theorem C10_second_503_branch_unreachable_witness :
    classifyResponseValid ⟨"billing", "low"⟩ = true ∧
    ("Classification service unavailable" = "Classification service unavailable" ∧
     "Unable to classify ticket at this time. Please select category and priority manually." =
       "Unable to classify ticket at this time. Please select category and priority manually.") :=
  ⟨C10_second_503_branch_unreachable.1 ⟨true, true⟩ (str "help")
      (BackendOutcome.reply (str "x"))
      (fun _ => some (Json.jobj
        [("category", Json.jstr "billing"), ("priority", Json.jstr "low")]))
      ⟨"billing", "low"⟩ rfl,
   C10_second_503_branch_unreachable.2 ⟨false, false⟩ (some (str "hi"))
      BackendOutcome.raised (fun _ => none)
      "Classification service unavailable"
      "Unable to classify ticket at this time. Please select category and priority manually."
      rfl⟩

/-- A create request whose `status` field is absent is only accepted with
the default status `open` in its validated data. -/
theorem createValidate_status_default {t0 d0 : Option Str}
    {c0 p0 : Option String} {v : Str × Str × Category × Priority × Status}
    (hv : ticketSerializerValidate ⟨t0, d0, c0, p0, none⟩ = some v) :
    v.2.2.2.2 = Status.«open» := by
  cases t0 with
  | none => simp [ticketSerializerValidate] at hv
  | some t =>
    cases d0 with
    | none => simp [ticketSerializerValidate] at hv
    | some d =>
      cases c0 with
      | none => simp [ticketSerializerValidate] at hv
      | some c =>
        cases p0 with
        | none => simp [ticketSerializerValidate] at hv
        | some p =>
          unfold ticketSerializerValidate at hv
          dsimp only at hv
          split_ifs at hv
          cases hck : Category.ofKey c with
          | none => rw [hck] at hv; simp at hv
          | some cat =>
            rw [hck] at hv
            cases hpk : Priority.ofKey p with
            | none => rw [hpk] at hv; simp at hv
            | some pri =>
              rw [hpk] at hv
              dsimp only at hv
              injection hv with hv
              subst hv
              rfl

/-- C3: a four-field create request with a non-empty trimmed title of at
most 200 characters, a non-empty trimmed description and valid enum values
yields 201 with a persisted ticket carrying the fresh id; when any of these
conditions fails it yields 400 and leaves the store unchanged. -/
theorem C3_create_valid_iff :
    (∀ (db : DB) (now : Nat) (t d : Str) (c p : String),
      wstrip t ≠ [] → (wstrip t).length ≤ 200 → wstrip d ≠ [] →
      c ∈ CATEGORY_CHOICES.map Prod.fst →
      p ∈ PRIORITY_CHOICES.map Prod.fst →
      ∃ tk,
        (create_ticket_op db now ⟨some t, some d, some c, some p, none⟩).1 =
          CreateResponse.created tk ∧
        ((create_ticket_op db now
            ⟨some t, some d, some c, some p, none⟩).1).statusCode = 201 ∧
        tk.id = db.nextId ∧
        tk ∈ (create_ticket_op db now
            ⟨some t, some d, some c, some p, none⟩).2.tickets ∧
        tk.title = wstrip t ∧ tk.description = wstrip d ∧
        tk.category.key = c ∧ tk.priority.key = p) ∧
    (∀ (db : DB) (now : Nat) (t d : Str) (c p : String),
      ¬(wstrip t ≠ [] ∧ (wstrip t).length ≤ 200 ∧ wstrip d ≠ [] ∧
        c ∈ CATEGORY_CHOICES.map Prod.fst ∧
        p ∈ PRIORITY_CHOICES.map Prod.fst) →
      (create_ticket_op db now ⟨some t, some d, some c, some p, none⟩).1 =
        CreateResponse.badRequest ∧
      ((create_ticket_op db now
          ⟨some t, some d, some c, some p, none⟩).1).statusCode = 400 ∧
      (create_ticket_op db now ⟨some t, some d, some c, some p, none⟩).2 =
        db) := by
  constructor
  · rintro db now t d c p h1 h2 h3 h4 h5
    obtain ⟨cat, hck⟩ :=
      Option.isSome_iff_exists.mp ((category_ofKey_isSome_iff c).mpr h4)
    obtain ⟨pri, hpk⟩ :=
      Option.isSome_iff_exists.mp ((priority_ofKey_isSome_iff p).mpr h5)
    have hval := createValidate_eq t d c p h1 h2 h3 hck hpk
    refine ⟨⟨db.nextId, wstrip t, wstrip d, cat, pri, Status.«open», now⟩,
      ?_, ?_, rfl, ?_, rfl, rfl, category_key_ofKey hck,
      priority_key_ofKey hpk⟩
    · unfold create_ticket_op; rw [hval]
    · unfold create_ticket_op; rw [hval]; rfl
    · unfold create_ticket_op; rw [hval]; simp
  · intro db now t d c p hn
    have hno :
        ticketSerializerValidate ⟨some t, some d, some c, some p, none⟩ =
          none := by
      cases hcase :
          ticketSerializerValidate ⟨some t, some d, some c, some p, none⟩ with
      | none => rfl
      | some val =>
        exact absurd
          ((createValidate_isSome_iff t d c p).mp (by rw [hcase]; rfl)) hn
    refine ⟨?_, ?_, ?_⟩ <;> (unfold create_ticket_op; rw [hno]; try rfl)

/-- Witness for C3: a valid creation and one with an empty title. -/
theorem C3_create_valid_iff_witness :
    (∃ tk,
      (create_ticket_op ⟨[], 0⟩ 100
          ⟨some (str "Login fails"), some (str "Cannot log in"),
           some "account", some "high", none⟩).1 =
        CreateResponse.created tk ∧
      ((create_ticket_op ⟨[], 0⟩ 100
          ⟨some (str "Login fails"), some (str "Cannot log in"),
           some "account", some "high", none⟩).1).statusCode = 201 ∧
      tk.id = (⟨[], 0⟩ : DB).nextId ∧
      tk ∈ (create_ticket_op ⟨[], 0⟩ 100
          ⟨some (str "Login fails"), some (str "Cannot log in"),
           some "account", some "high", none⟩).2.tickets ∧
      tk.title = wstrip (str "Login fails") ∧
      tk.description = wstrip (str "Cannot log in") ∧
      tk.category.key = "account" ∧ tk.priority.key = "high") ∧
    ((create_ticket_op ⟨[], 0⟩ 100
        ⟨some (str ""), some (str "Cannot log in"),
         some "account", some "high", none⟩).1 =
      CreateResponse.badRequest ∧
     ((create_ticket_op ⟨[], 0⟩ 100
        ⟨some (str ""), some (str "Cannot log in"),
         some "account", some "high", none⟩).1).statusCode = 400 ∧
     (create_ticket_op ⟨[], 0⟩ 100
        ⟨some (str ""), some (str "Cannot log in"),
         some "account", some "high", none⟩).2 = ⟨[], 0⟩) :=
  ⟨C3_create_valid_iff.1 ⟨[], 0⟩ 100 (str "Login fails")
      (str "Cannot log in") "account" "high" (by decide) (by decide)
      (by decide) (by decide) (by decide),
   C3_create_valid_iff.2 ⟨[], 0⟩ 100 (str "") (str "Cannot log in")
      "account" "high" (by decide)⟩

/-- C9: a ticket created without an explicit status is stored with status
`open` and its creation time; and the update operation never changes any
row's `created_at` (nor its id). -/
theorem C9_default_open_created_at_immutable :
    (∀ (db : DB) (now : Nat) (r : CreateRequest) (tk : Ticket),
      r.status = none →
      (create_ticket_op db now r).1 = CreateResponse.created tk →
      tk.status = Status.«open» ∧ tk.created_at = now) ∧
    (∀ (db : DB) (pk : Nat) (u : UpdateRequest),
      (db.tickets.map (fun t => t.id)).Nodup →
      (update_ticket_op db pk u).2.tickets.map
          (fun t => (t.id, t.created_at)) =
        db.tickets.map (fun t => (t.id, t.created_at))) := by
  constructor
  · intro db now r tk hs hcr
    obtain ⟨t0, d0, c0, p0, s0⟩ := r
    dsimp at hs
    subst hs
    unfold create_ticket_op at hcr
    cases hv : ticketSerializerValidate ⟨t0, d0, c0, p0, none⟩ with
    | none => rw [hv] at hcr; simp at hcr
    | some v =>
      rw [hv] at hcr
      obtain ⟨tt, dd, cat, pri, st⟩ := v
      dsimp only at hcr
      injection hcr with hcr
      subst hcr
      exact ⟨createValidate_status_default hv, rfl⟩
  · intro db pk u hnd
    unfold update_ticket_op
    cases hf : db.tickets.find? (fun t => t.id = pk) with
    | none => rfl
    | some t =>
      cases hv : updateSerializerValidate u with
      | none => rfl
      | some triple =>
        obtain ⟨oc, op, os⟩ := triple
        dsimp only
        obtain ⟨hmem, hid, huniq⟩ := find_by_id_spec hnd hf
        rw [List.map_map]
        apply List.map_congr_left
        intro x hx
        by_cases hxid : x.id = pk
        · have hxt := huniq x hx hxid
          subst hxt
          simp [Function.comp, hxid, applyUpdate]
        · simp [Function.comp, hxid]

/-- Witness for C9: a concrete creation without status and a concrete
update. -/
theorem C9_default_open_created_at_immutable_witness :
    ((⟨0, str "Hi", str "There", Category.billing, Priority.low,
        Status.«open», 5⟩ : Ticket).status = Status.«open» ∧
     (⟨0, str "Hi", str "There", Category.billing, Priority.low,
        Status.«open», 5⟩ : Ticket).created_at = 5) ∧
    (update_ticket_op
        ⟨[⟨0, str "A", str "B", Category.billing, Priority.low,
           Status.«open», 10⟩], 1⟩ 0
        ⟨none, none, some "resolved"⟩).2.tickets.map
        (fun t => (t.id, t.created_at)) =
      (⟨[⟨0, str "A", str "B", Category.billing, Priority.low,
          Status.«open», 10⟩], 1⟩ : DB).tickets.map
        (fun t => (t.id, t.created_at)) :=
  ⟨C9_default_open_created_at_immutable.1 ⟨[], 0⟩ 5
      ⟨some (str "Hi"), some (str "There"), some "billing", some "low",
       none⟩
      ⟨0, str "Hi", str "There", Category.billing, Priority.low,
       Status.«open», 5⟩ rfl (by decide),
   C9_default_open_created_at_immutable.2
      ⟨[⟨0, str "A", str "B", Category.billing, Priority.low,
         Status.«open», 10⟩], 1⟩ 0 ⟨none, none, some "resolved"⟩
      (by decide)⟩

/-- C5: updating an absent id yields 404 and no change; an update providing
no field on an existing id yields 400 and no change; an update providing
valid fields merges exactly the provided fields into the stored row and
changes nothing else — not the row's title, description, id or creation
time, and no other row. -/
theorem C5_update_semantics :
    (∀ (db : DB) (pk : Nat) (u : UpdateRequest),
      (∀ t ∈ db.tickets, t.id ≠ pk) →
      update_ticket_op db pk u = (UpdateResponse.notFound, db) ∧
      ((update_ticket_op db pk u).1).statusCode = 404) ∧
    (∀ (db : DB) (pk : Nat),
      (db.tickets.find? (fun t => t.id = pk)).isSome = true →
      update_ticket_op db pk ⟨none, none, none⟩ =
        (UpdateResponse.badRequest, db) ∧
      ((update_ticket_op db pk ⟨none, none, none⟩).1).statusCode = 400) ∧
    (∀ (db : DB) (pk : Nat) (u : UpdateRequest) (t : Ticket)
      (oc : Option Category) (op : Option Priority) (os : Option Status),
      (db.tickets.map (fun t => t.id)).Nodup →
      db.tickets.find? (fun t => t.id = pk) = some t →
      updateSerializerValidate u = some (oc, op, os) →
      (update_ticket_op db pk u).1 =
        UpdateResponse.ok (applyUpdate t oc op os) ∧
      oc.map Category.key = u.category ∧
      op.map Priority.key = u.priority ∧
      os.map Status.key = u.status ∧
      (applyUpdate t oc op os).title = t.title ∧
      (applyUpdate t oc op os).description = t.description ∧
      (applyUpdate t oc op os).created_at = t.created_at ∧
      (applyUpdate t oc op os).id = t.id ∧
      (update_ticket_op db pk u).2.tickets =
        db.tickets.map (fun x =>
          if x.id = pk then
            { x with
              category := oc.getD x.category
              priority := op.getD x.priority
              status := os.getD x.status }
          else x) ∧
      (update_ticket_op db pk u).2.nextId = db.nextId) := by
  refine ⟨?_, ?_, ?_⟩
  · intro db pk u h
    have hf : db.tickets.find? (fun t => t.id = pk) = none := by
      rw [List.find?_eq_none]
      intro x hx
      simpa using h x hx
    constructor
    · unfold update_ticket_op; rw [hf]
    · unfold update_ticket_op; rw [hf]; rfl
  · intro db pk hs
    obtain ⟨t, hf⟩ := Option.isSome_iff_exists.mp hs
    constructor
    · unfold update_ticket_op; rw [hf]; rfl
    · unfold update_ticket_op; rw [hf]; rfl
  · intro db pk u t oc op os hnd hf hv
    obtain ⟨hck, hpk2, hsk⟩ := updateSerializerValidate_spec hv
    obtain ⟨hmem, hid, huniq⟩ := find_by_id_spec hnd hf
    refine ⟨?_, hck, hpk2, hsk, rfl, rfl, rfl, rfl, ?_, ?_⟩
    · unfold update_ticket_op; rw [hf, hv]; try rfl
    · unfold update_ticket_op; rw [hf, hv]
      dsimp only
      apply List.map_congr_left
      intro x hx
      by_cases hxid : x.id = pk
      · have hxt := huniq x hx hxid
        subst hxt
        simp [hxid, applyUpdate]
      · simp [hxid]
    · unfold update_ticket_op; rw [hf, hv]; try rfl

/-- Witness for C5: a missing id, an empty update and a status-only
update. -/
theorem C5_update_semantics_witness :
    (update_ticket_op ⟨[], 0⟩ 1 ⟨some "billing", none, none⟩ =
      (UpdateResponse.notFound, ⟨[], 0⟩) ∧
     ((update_ticket_op ⟨[], 0⟩ 1
        ⟨some "billing", none, none⟩).1).statusCode = 404) ∧
    (update_ticket_op
        ⟨[⟨0, str "A", str "B", Category.billing, Priority.low,
           Status.«open», 10⟩], 1⟩ 0 ⟨none, none, none⟩ =
      (UpdateResponse.badRequest,
       ⟨[⟨0, str "A", str "B", Category.billing, Priority.low,
          Status.«open», 10⟩], 1⟩) ∧
     ((update_ticket_op
        ⟨[⟨0, str "A", str "B", Category.billing, Priority.low,
           Status.«open», 10⟩], 1⟩ 0
        ⟨none, none, none⟩).1).statusCode = 400) ∧
    ((update_ticket_op
        ⟨[⟨0, str "A", str "B", Category.billing, Priority.low,
           Status.«open», 10⟩], 1⟩ 0 ⟨none, none, some "resolved"⟩).1 =
      UpdateResponse.ok
        (applyUpdate
          ⟨0, str "A", str "B", Category.billing, Priority.low,
           Status.«open», 10⟩ none none (some Status.resolved)) ∧
     (update_ticket_op
        ⟨[⟨0, str "A", str "B", Category.billing, Priority.low,
           Status.«open», 10⟩], 1⟩ 0
        ⟨none, none, some "resolved"⟩).2.tickets =
       [⟨0, str "A", str "B", Category.billing, Priority.low,
         Status.«open», 10⟩].map (fun x =>
         if x.id = 0 then
           { x with
             category := (none : Option Category).getD x.category
             priority := (none : Option Priority).getD x.priority
             status := (some Status.resolved).getD x.status }
         else x)) :=
  ⟨C5_update_semantics.1 ⟨[], 0⟩ 1 ⟨some "billing", none, none⟩
      (by decide),
   C5_update_semantics.2.1
      ⟨[⟨0, str "A", str "B", Category.billing, Priority.low,
         Status.«open», 10⟩], 1⟩ 0 (by decide),
   ((C5_update_semantics.2.2
      ⟨[⟨0, str "A", str "B", Category.billing, Priority.low,
         Status.«open», 10⟩], 1⟩ 0 ⟨none, none, some "resolved"⟩
      ⟨0, str "A", str "B", Category.billing, Priority.low,
       Status.«open», 10⟩ none none (some Status.resolved)
      (by decide) (by decide) (by decide)).1),
   ((C5_update_semantics.2.2
      ⟨[⟨0, str "A", str "B", Category.billing, Priority.low,
         Status.«open», 10⟩], 1⟩ 0 ⟨none, none, some "resolved"⟩
      ⟨0, str "A", str "B", Category.billing, Priority.low,
       Status.«open», 10⟩ none none (some Status.resolved)
      (by decide) (by decide) (by decide)).2.2.2.2.2.2.2.2.1)⟩

/-- The list view is the filter of the spec's conjunction over the ordered
queryset: applying the present parameters one after the other equals one
pass with the conjoined predicate. -/
theorem list_tickets_op_eq_filter (db : DB) (ps : ListParams) :
    list_tickets_op db ps =
      (db.tickets.mergeSort newestFirst).filter (matchesFilters ps) := by
  obtain ⟨c, p, s, q⟩ := ps
  unfold list_tickets_op matchesFilters
  cases c <;> cases p <;> cases s <;> cases q <;>
    dsimp only <;> (try split_ifs) <;>
    simp_all [List.filter_filter, Bool.and_comm, Bool.and_left_comm,
      Bool.and_assoc]

/-- C6: for every combination of the optional filters, the list endpoint
returns exactly the tickets of the store satisfying the conjunction of the
supplied filters (a permutation of the one-pass filter), ordered
newest-first by creation time. -/
theorem C6_list_conjunctive_newest_first (db : DB) (ps : ListParams) :
    (list_tickets_op db ps).Perm (db.tickets.filter (matchesFilters ps)) ∧
    (list_tickets_op db ps).Pairwise
      (fun a b => b.created_at ≤ a.created_at) := by
  have htrans : ∀ a b c : Ticket, newestFirst a b = true →
      newestFirst b c = true → newestFirst a c = true := by
    intro a b c hab hbc
    simp [newestFirst] at *
    omega
  have htotal : ∀ a b : Ticket, (newestFirst a b || newestFirst b a) = true := by
    intro a b
    simp [newestFirst]
    omega
  constructor
  · rw [list_tickets_op_eq_filter]
    exact (List.mergeSort_perm db.tickets newestFirst).filter _
  · rw [list_tickets_op_eq_filter]
    have hs := List.sorted_mergeSort htrans htotal db.tickets
    exact List.Pairwise.imp (fun hab => by simpa [newestFirst] using hab)
      (List.Pairwise.sublist (List.filter_sublist _) hs)

/-- Lookup misses a key absent from an association list. -/
theorem lookup_eq_none_of_not_mem {l : List (String × Nat)} {k : String}
    (h : k ∉ l.map Prod.fst) : l.lookup k = none := by
  induction l with
  | nil => rfl
  | cons a r ih =>
    obtain ⟨ak, av⟩ := a
    simp only [List.map_cons, List.mem_cons, not_or] at h
    have hb : (k == ak) = false := beq_eq_false_iff_ne.mpr h.1
    simp [List.lookup, hb, ih h.2]

/-- A sequence of dict assignments from a duplicate-free association list
reads back as lookup, falling through to the initial dictionary. -/
theorem fillCounts_eval (counts : List (String × Nat)) (bd : Breakdown)
    (k : String) (h : (counts.map Prod.fst).Nodup) :
    fillCounts bd counts k = (counts.lookup k).or (bd k) := by
  induction counts generalizing bd with
  | nil => simp [fillCounts]
  | cons a r ih =>
    obtain ⟨ak, av⟩ := a
    simp only [List.map_cons, List.nodup_cons] at h
    obtain ⟨hna, hnr⟩ := h
    show fillCounts (bdSet bd ak av) r k = _
    rw [ih _ hnr]
    by_cases hk : k = ak
    · subst hk
      rw [lookup_eq_none_of_not_mem hna]
      simp [List.lookup, bdSet]
    · have hb : (k == ak) = false := beq_eq_false_iff_ne.mpr hk
      simp [List.lookup, hb, bdSet, hk]

/-- Lookup in a keyed map built from a list of keys. -/
theorem lookup_map_pair (l : List String) (f : String → Nat) (k : String) :
    (l.map (fun v => (v, f v))).lookup k =
      if k ∈ l then some (f k) else none := by
  induction l with
  | nil => simp
  | cons a r ih =>
    by_cases hk : k = a
    · subst hk
      simp [List.lookup]
    · have hb : (k == a) = false := beq_eq_false_iff_ne.mpr hk
      simp [List.lookup, hb, ih, hk]

/-- The keys of the grouped counts are the distinct stored values. -/
theorem valuesAnnotateCount_keys (vals : List String) :
    (valuesAnnotateCount vals).map Prod.fst = vals.dedup := by
  unfold valuesAnnotateCount
  rw [List.map_map]
  rw [show (Prod.fst ∘ fun v => (v, vals.count v)) = id from rfl]
  exact List.map_id _

/-- Reading one enum key out of a zero-initialised breakdown filled with
the grouped counts gives that key's number of occurrences. -/
theorem breakdown_eval (vals : List String) (choices : List (String × String))
    (k : String) (hk : k ∈ choices.map Prod.fst)
    (hnd : (choices.map Prod.fst).Nodup) :
    fillCounts
        (fillCounts (fun _ => none) (choices.map (fun ch => (ch.1, 0))))
        (valuesAnnotateCount vals) k = some (vals.count k) := by
  rw [fillCounts_eval _ _ _
    (by rw [valuesAnnotateCount_keys]; exact List.nodup_dedup vals)]
  rw [fillCounts_eval _ _ _
    (by simpa [List.map_map, Function.comp] using hnd)]
  have h1 : (valuesAnnotateCount vals).lookup k =
      if k ∈ vals.dedup then some (vals.count k) else none :=
    lookup_map_pair vals.dedup (fun v => vals.count v) k
  have hrw : choices.map (fun ch => (ch.1, 0)) =
      (choices.map Prod.fst).map (fun v => (v, 0)) := by
    simp [List.map_map, Function.comp]
  have h2 : (choices.map (fun ch => (ch.1, 0))).lookup k = some 0 := by
    rw [hrw, lookup_map_pair (choices.map Prod.fst) (fun _ => 0) k]
    simp [hk]
  rw [h1, h2]
  by_cases hkv : k ∈ vals
  · simp [List.mem_dedup, hkv]
  · simp [List.mem_dedup, hkv, List.count_eq_zero.mpr hkv]

/-- Counting one stored value in the projected column equals counting the
rows whose projection is that value. -/
theorem count_map_key (l : List Ticket) (f : Ticket → String) (k : String) :
    (l.map f).count k = l.countP (fun t => f t = k) := by
  rw [List.count_eq_countP, List.countP_map]
  apply List.countP_congr
  intro t _
  by_cases h : f t = k <;> simp [Function.comp, h]

/-- The row returned by `order_by('created_at').first()` exists on a
non-empty table, belongs to the table, and has minimal creation time. -/
theorem earliest_ticket_spec (ts : List Ticket) (h : ts ≠ []) :
    ∃ e, earliest_ticket ts = some e ∧ e ∈ ts ∧
      ∀ u ∈ ts, e.created_at ≤ u.created_at := by
  have htrans : ∀ a b c : Ticket, oldestFirst a b = true →
      oldestFirst b c = true → oldestFirst a c = true := by
    intro a b c hab hbc
    simp [oldestFirst] at *
    omega
  have htotal : ∀ a b : Ticket, (oldestFirst a b || oldestFirst b a) = true := by
    intro a b
    simp [oldestFirst]
    omega
  have hperm := List.mergeSort_perm ts oldestFirst
  have hsorted := List.sorted_mergeSort htrans htotal ts
  cases hms : ts.mergeSort oldestFirst with
  | nil =>
    rw [hms] at hperm
    exact absurd hperm.nil_eq.symm h
  | cons e rest =>
    rw [hms] at hperm hsorted
    refine ⟨e, ?_, ?_, ?_⟩
    · unfold earliest_ticket
      rw [hms]
      rfl
    · exact hperm.subset (List.mem_cons_self e rest)
    · intro u hu
      have hu' : u ∈ e :: rest := hperm.symm.subset hu
      rcases List.mem_cons.mp hu' with rfl | hur
      · exact le_refl _
      · have := (List.pairwise_cons.mp hsorted).1 u hur
        simpa [oldestFirst] using this

/-- C4: the stats view returns the table size as total, the number of rows
with status `open`, an average of total over at least one day since the
earliest row's creation (0 on an empty table, where the total is 0 as
well), rounded to one decimal, and per-category and per-priority counts
defined — and hence zero-filled — at every enum key. -/
theorem C4_stats_shape :
    (∀ (db : DB) (now : Nat),
      (ticket_stats_op db now).total_tickets = db.tickets.length ∧
      (ticket_stats_op db now).open_tickets =
        db.tickets.countP (fun t => t.status = Status.«open»)) ∧
    (∀ (db : DB) (now : Nat), db.tickets = [] →
      (ticket_stats_op db now).total_tickets = 0 ∧
      (ticket_stats_op db now).avg_tickets_per_day = 0) ∧
    (∀ (db : DB) (now : Nat), db.tickets ≠ [] →
      ∃ e ∈ db.tickets, (∀ u ∈ db.tickets, e.created_at ≤ u.created_at) ∧
        (ticket_stats_op db now).avg_tickets_per_day =
          round1 ((db.tickets.length : ℚ) /
            ((max ((now - e.created_at) / 86400) 1 : ℕ) : ℚ))) ∧
    (∀ (db : DB) (now : Nat) (k : String),
      k ∈ CATEGORY_CHOICES.map Prod.fst →
      (ticket_stats_op db now).category_breakdown k =
        some (db.tickets.countP (fun t => t.category.key = k))) ∧
    (∀ (db : DB) (now : Nat) (k : String),
      k ∈ PRIORITY_CHOICES.map Prod.fst →
      (ticket_stats_op db now).priority_breakdown k =
        some (db.tickets.countP (fun t => t.priority.key = k))) := by
  refine ⟨?_, ?_, ?_, ?_, ?_⟩
  · intro db now
    exact ⟨rfl, (List.countP_eq_length_filter _ _).symm⟩
  · intro db now h
    obtain ⟨ts, ni⟩ := db
    dsimp at h
    subst h
    constructor
    · rfl
    · show (ticket_stats_op ⟨[], ni⟩ now).avg_tickets_per_day = 0
      unfold ticket_stats_op earliest_ticket
      simp [List.mergeSort_nil]
  · intro db now h
    obtain ⟨e, he, hmem, hmin⟩ := earliest_ticket_spec db.tickets h
    refine ⟨e, hmem, hmin, ?_⟩
    unfold ticket_stats_op
    dsimp only
    rw [he]
    dsimp only
    rw [if_pos (List.length_pos.mpr h)]
  · intro db now k hk
    show fillCounts
        (fillCounts (fun _ => none)
          (CATEGORY_CHOICES.map (fun ch => (ch.1, 0))))
        (valuesAnnotateCount (db.tickets.map (fun t => t.category.key))) k =
      some (db.tickets.countP (fun t => t.category.key = k))
    rw [breakdown_eval _ _ _ hk (by decide)]
    rw [count_map_key]
  · intro db now k hk
    show fillCounts
        (fillCounts (fun _ => none)
          (PRIORITY_CHOICES.map (fun ch => (ch.1, 0))))
        (valuesAnnotateCount (db.tickets.map (fun t => t.priority.key))) k =
      some (db.tickets.countP (fun t => t.priority.key = k))
    rw [breakdown_eval _ _ _ hk (by decide)]
    rw [count_map_key]

/-- Witness for C4: the empty table and a one-row table. -/
theorem C4_stats_shape_witness :
    ((ticket_stats_op ⟨[], 0⟩ 0).total_tickets = 0 ∧
     (ticket_stats_op ⟨[], 0⟩ 0).avg_tickets_per_day = 0) ∧
    (∃ e ∈ (⟨[⟨0, str "A", str "B", Category.billing, Priority.low,
          Status.«open», 10⟩], 1⟩ : DB).tickets,
      (∀ u ∈ (⟨[⟨0, str "A", str "B", Category.billing, Priority.low,
          Status.«open», 10⟩], 1⟩ : DB).tickets,
        e.created_at ≤ u.created_at) ∧
      (ticket_stats_op
          ⟨[⟨0, str "A", str "B", Category.billing, Priority.low,
             Status.«open», 10⟩], 1⟩ 20).avg_tickets_per_day =
        round1 (((⟨[⟨0, str "A", str "B", Category.billing, Priority.low,
            Status.«open», 10⟩], 1⟩ : DB).tickets.length : ℚ) /
          ((max ((20 - e.created_at) / 86400) 1 : ℕ) : ℚ))) ∧
    (ticket_stats_op
        ⟨[⟨0, str "A", str "B", Category.billing, Priority.low,
           Status.«open», 10⟩], 1⟩ 20).category_breakdown "billing" =
      some ((⟨[⟨0, str "A", str "B", Category.billing, Priority.low,
          Status.«open», 10⟩], 1⟩ : DB).tickets.countP
        (fun t => t.category.key = "billing")) ∧
    (ticket_stats_op
        ⟨[⟨0, str "A", str "B", Category.billing, Priority.low,
           Status.«open», 10⟩], 1⟩ 20).priority_breakdown "low" =
      some ((⟨[⟨0, str "A", str "B", Category.billing, Priority.low,
          Status.«open», 10⟩], 1⟩ : DB).tickets.countP
        (fun t => t.priority.key = "low")) :=
  ⟨C4_stats_shape.2.1 ⟨[], 0⟩ 0 rfl,
   C4_stats_shape.2.2.1
     ⟨[⟨0, str "A", str "B", Category.billing, Priority.low,
        Status.«open», 10⟩], 1⟩ 20 (by decide),
   C4_stats_shape.2.2.2.1
     ⟨[⟨0, str "A", str "B", Category.billing, Priority.low,
        Status.«open», 10⟩], 1⟩ 20 "billing" (by decide),
   C4_stats_shape.2.2.2.2
     ⟨[⟨0, str "A", str "B", Category.billing, Priority.low,
        Status.«open», 10⟩], 1⟩ 20 "low" (by decide)⟩

end Tickets
